import Mathlib

/-!
Verification of the example client scripts of the AgenticDebuggerVsix repository
(src/examples/basic_agent.py, src/examples/websocket_agent.py,
src/examples/autonomous_debug_agent.py).

The scripts are plain Python programs that read a discovery record, issue HTTP
requests to a debugger bridge and react to WebSocket events.  The embedding
below models:
  * JSON values (`Json`) together with a parser (`parseJson`) standing for
    Python `json.loads` and `requests.Response.json()`;
  * the Python-level behaviours the scripts rely on: dictionary access and
    defaults, truthiness, lowercase conversion, substring tests, and the
    `str()` rendering used inside f-strings;
  * the HTTP transport as a pure function from requests to responses
    (`Bridge`); every helper returns the list of requests it sent, so that
    theorems can speak about what was put on the wire;
  * runtime errors (KeyError, TypeError, ...) as explicit `PyErr` values.

Each script is embedded in its own namespace (`Basic`, `WsAgent`, `Auto`),
function by function, in source order.
-/

/-- JSON values as produced by Python `json.loads`.  Numbers are restricted to
integers, which covers every payload the scripts construct and every response
field the claims mention. -/
inductive Json where
  | null
  | bool (b : Bool)
  | num (n : Int)
  | str (s : String)
  | arr (elems : List Json)
  | obj (fields : List (String × Json))

mutual
/-- Structural equality of JSON values, used for the Python `==` tests the
scripts perform (`mode == "Break"` and similar). -/
def Json.beq : Json → Json → Bool
  | .null, .null => true
  | .bool a, .bool b => a == b
  | .num a, .num b => a == b
  | .str a, .str b => a == b
  | .arr xs, .arr ys => Json.beqList xs ys
  | .obj xs, .obj ys => Json.beqFields xs ys
  | _, _ => false
def Json.beqList : List Json → List Json → Bool
  | [], [] => true
  | x :: xs, y :: ys => Json.beq x y && Json.beqList xs ys
  | _, _ => false
def Json.beqFields : List (String × Json) → List (String × Json) → Bool
  | [], [] => true
  | (k, v) :: xs, (l, w) :: ys => k == l && Json.beq v w && Json.beqFields xs ys
  | _, _ => false
end

instance : BEq Json := ⟨Json.beq⟩

/-- Python runtime errors that the scripts can raise.  `valueError` also stands
for the JSON decode error raised by `json.loads` / `resp.json()`. -/
inductive PyErr where
  | keyError
  | typeError
  | attributeError
  | valueError
  | zeroDivisionError
  deriving DecidableEq

/- Named character constants used by the JSON parser and by the Python
`repr` rendering: double quote, backslash, both braces and the single quote. -/
def quoteC : Char := Char.ofNat 34
def backslashC : Char := Char.ofNat 92
def lbraceC : Char := Char.ofNat 123
def rbraceC : Char := Char.ofNat 125
def squoteC : Char := Char.ofNat 39

def lbraceS : String := String.singleton lbraceC
def rbraceS : String := String.singleton rbraceC
def squoteS : String := String.singleton squoteC

/-! ### A JSON parser, modelling Python `json.loads`. -/

def skipWs : List Char → List Char
  | [] => []
  | c :: cs => if c = ' ' ∨ c = '\t' ∨ c = '\n' ∨ c = '\r' then skipWs cs else c :: cs

def unescapeC (c : Char) : Option Char :=
  if c = quoteC then some quoteC
  else if c = backslashC then some backslashC
  else if c = '/' then some '/'
  else if c = 'n' then some '\n'
  else if c = 't' then some '\t'
  else if c = 'r' then some '\r'
  else if c = 'b' then some (Char.ofNat 8)
  else if c = 'f' then some (Char.ofNat 12)
  else none

def parseStringAux : List Char → List Char → Option (String × List Char)
  | [], _ => none
  | c :: cs, acc =>
    if c = quoteC then some (String.mk acc.reverse, cs)
    else if c = backslashC then
      match cs with
      | [] => none
      | e :: cs2 =>
        match unescapeC e with
        | some d => parseStringAux cs2 (d :: acc)
        | none => none
    else parseStringAux cs (c :: acc)

def digitVal (c : Char) : Nat := c.toNat - 48

def digitsToNat (ds : List Char) : Nat := ds.foldl (fun a c => a * 10 + digitVal c) 0

/-- `leadsWith n h` is true when the list `n` is an initial segment of `h`. -/
def leadsWith : List Char → List Char → Bool
  | [], _ => true
  | _ :: _, [] => false
  | a :: as, b :: bs => a == b && leadsWith as bs

/-- Insertion into an association list with Python `dict` semantics: a repeated
key overwrites the stored value but keeps its original position. -/
def dictInsert (k : String) (v : Json) : List (String × Json) → List (String × Json)
  | [] => [(k, v)]
  | (k2, v2) :: fs => if k2 = k then (k2, v) :: fs else (k2, v2) :: dictInsert k v fs

/-- Parser modes: a plain value, the element list of an array, or the field
list of an object. -/
inductive PMode where
  | val
  | elems (acc : List Json)
  | fields (acc : List (String × Json))

/-- Recursive-descent JSON parser, structurally recursive on a fuel counter so
that concrete inputs evaluate by `rfl`. -/
def parseF : Nat → PMode → List Char → Option (Json × List Char)
  | 0, _, _ => none
  | fuel + 1, .val, cs0 =>
    match skipWs cs0 with
    | [] => none
    | c :: cs =>
      if c = lbraceC then parseF fuel (.fields []) (skipWs cs)
      else if c = '[' then parseF fuel (.elems []) (skipWs cs)
      else if c = quoteC then (parseStringAux cs []).map (fun p => (Json.str p.1, p.2))
      else if leadsWith "true".toList (c :: cs) then some (Json.bool true, (c :: cs).drop 4)
      else if leadsWith "false".toList (c :: cs) then some (Json.bool false, (c :: cs).drop 5)
      else if leadsWith "null".toList (c :: cs) then some (Json.null, (c :: cs).drop 4)
      else if c = '-' then
        match (cs.takeWhile Char.isDigit) with
        | [] => none
        | ds => some (Json.num (-(digitsToNat ds : Int)), cs.dropWhile Char.isDigit)
      else if c.isDigit then
        some (Json.num (digitsToNat ((c :: cs).takeWhile Char.isDigit) : Int),
          (c :: cs).dropWhile Char.isDigit)
      else none
  | _ + 1, .elems _, [] => none
  | fuel + 1, .elems acc, c :: cs =>
    if c == ']' && acc.isEmpty then some (Json.arr [], cs)
    else
      match parseF fuel .val (c :: cs) with
      | none => none
      | some (v, rest) =>
        match skipWs rest with
        | ',' :: rest2 => parseF fuel (.elems (v :: acc)) (skipWs rest2)
        | ']' :: rest2 => some (Json.arr (v :: acc).reverse, rest2)
        | _ => none
  | _ + 1, .fields _, [] => none
  | fuel + 1, .fields acc, c :: cs =>
    if c == rbraceC && acc.isEmpty then some (Json.obj [], cs)
    else if c = quoteC then
      match parseStringAux cs [] with
      | none => none
      | some (k, rest) =>
        match skipWs rest with
        | ':' :: rest2 =>
          match parseF fuel .val (skipWs rest2) with
          | none => none
          | some (v, rest3) =>
            match skipWs rest3 with
            | ',' :: rest4 => parseF fuel (.fields (dictInsert k v acc)) (skipWs rest4)
            | r :: rest4 =>
              if r = rbraceC then some (Json.obj (dictInsert k v acc), rest4) else none
            | _ => none
        | _ => none
    else none

/-- `json.loads`: parse a whole string, requiring only whitespace after the
value. -/
def parseJson (s : String) : Option Json :=
  match parseF (4 * (s.length + 2)) .val s.toList with
  | some (j, rest) => if skipWs rest = [] then some j else none
  | none => none

/-! ### Python-level semantics used by the scripts. -/

/-- Python truthiness of a decoded JSON value. -/
def pyTruthy : Json → Bool
  | .null => false
  | .bool b => b
  | .num n => n != 0
  | .str s => !s.isEmpty
  | .arr xs => !xs.isEmpty
  | .obj fs => !fs.isEmpty

/-- Python `d.get(k)`: `none` when the key is absent; raises AttributeError on
a value that is not a dictionary. -/
def pyGet (j : Json) (k : String) : Except PyErr (Option Json) :=
  match j with
  | .obj fs => .ok (List.lookup k fs)
  | _ => .error .attributeError

/-- Python `d[k]`: KeyError when the key is absent, TypeError when the value is
not subscriptable by a string. -/
def pyGetItem (j : Json) (k : String) : Except PyErr Json :=
  match j with
  | .obj fs =>
    match List.lookup k fs with
    | some v => .ok v
    | none => .error .keyError
  | _ => .error .typeError

/-- Python `list(d.keys())`. -/
def pyKeys (j : Json) : Except PyErr (List String) :=
  match j with
  | .obj fs => .ok (fs.map Prod.fst)
  | _ => .error .attributeError

/-- ASCII lowercase of one character, as `str.lower` behaves on the ASCII
letters the scripts match against. -/
def pyLowerChar (c : Char) : Char :=
  if 65 ≤ c.toNat ∧ c.toNat ≤ 90 then Char.ofNat (c.toNat + 32) else c

/-- Python `s.lower()`. -/
def pyLower (s : String) : String := String.mk (s.toList.map pyLowerChar)

/-- `subListIn n h` is true when `n` occurs contiguously inside `h`. -/
def subListIn (n : List Char) : List Char → Bool
  | [] => n.isEmpty
  | c :: t => leadsWith n (c :: t) || subListIn n t

/-- Python `needle in haystack` on strings. -/
def pyIn (needle hay : String) : Bool := subListIn needle.toList hay.toList

/-- Python `needle in container` for an arbitrary decoded JSON container:
substring test on strings, membership on lists, key membership on
dictionaries, TypeError otherwise. -/
def pyContains (needle : String) (container : Json) : Except PyErr Bool :=
  match container with
  | .str s => .ok (pyIn needle s)
  | .arr xs => .ok (xs.contains (Json.str needle))
  | .obj fs => .ok (fs.any (fun p => p.1 == needle))
  | _ => .error .typeError

/-- Python `x == "t"` where `x` may be `None` (absent key): `None` compares
unequal to every string. -/
def optIsStr (o : Option Json) (t : String) : Bool :=
  match o with
  | some m => m == Json.str t
  | none => false

mutual
/-- Python `repr` of a decoded JSON value, as printed for containers inside
f-strings. -/
def pyRepr : Json → String
  | .null => "None"
  | .bool true => "True"
  | .bool false => "False"
  | .num n => toString n
  | .str s => squoteS ++ s ++ squoteS
  | .arr xs => "[" ++ pyReprElems xs ++ "]"
  | .obj fs => lbraceS ++ pyReprFields fs ++ rbraceS
def pyReprElems : List Json → String
  | [] => ""
  | [x] => pyRepr x
  | x :: y :: xs => pyRepr x ++ ", " ++ pyReprElems (y :: xs)
def pyReprFields : List (String × Json) → String
  | [] => ""
  | [(k, v)] => squoteS ++ k ++ squoteS ++ ": " ++ pyRepr v
  | (k, v) :: f :: fs =>
    squoteS ++ k ++ squoteS ++ ": " ++ pyRepr v ++ ", " ++ pyReprFields (f :: fs)
end

/-- Python `str` of a decoded JSON value, as substituted into f-strings. -/
def pyStr : Json → String
  | .str s => s
  | j => pyRepr j

/-! ### The HTTP / WebSocket transport model. -/

/-- The discovery record read once at startup from the well-known temporary
file (`agentic_debugger.json`): port, API key and the name of the header that
must carry the key. -/
structure Discovery where
  port : Nat
  defaultApiKey : String
  keyHeader : String

/-- `BASE_URL = f"http://localhost:{port}"` (all three scripts). -/
def BASE_URL (d : Discovery) : String := "http://localhost:" ++ toString d.port

/-- `WS_URL = f"ws://localhost:{port}/ws"` (websocket and autonomous agent). -/
def WS_URL (d : Discovery) : String := "ws://localhost:" ++ toString d.port ++ "/ws"

/-- `HEADERS = {keyHeader: API_KEY}` (all three scripts). -/
def HEADERS (d : Discovery) : List (String × String) := [(d.keyHeader, d.defaultApiKey)]

/-- One HTTP request as assembled by the `requests` calls in the scripts. -/
structure Request where
  method : String
  url : String
  headers : List (String × String)
  body : Option Json

/-- One HTTP response: status code and raw body text. -/
structure Response where
  statusCode : Nat
  text : String

/-- The external bridge service, modelled as a pure mapping from requests to
responses. -/
def Bridge : Type := Request → Response

/-- `resp.json()`: decode the body text, raising a decode error (modelled as
`valueError`) when the body is not valid JSON.  The status code is not
consulted. -/
def respJson (r : Response) : Except PyErr Json :=
  match parseJson r.text with
  | some j => .ok j
  | none => .error .valueError

/-- Convenience accessor for a named field of a request body. -/
def bodyField (r : Request) (k : String) : Option Json :=
  match r.body with
  | some (.obj fs) => List.lookup k fs
  | _ => none

/-- The `websocket.WebSocketApp(...)` object: the URL it connects to and the
extra headers handed to the library (the `header` option, which defaults to no
headers when not passed). -/
structure WebSocketApp where
  url : String
  header : List (String × String)

/-! ### basic_agent.py -/

namespace Basic

/-- `get_state` (basic_agent.py lines 22-25): `GET /state`, decoded as JSON.
Returns the requests that were sent together with the decoded result. -/
def get_state (d : Discovery) (b : Bridge) : List Request × Except PyErr Json :=
  let req : Request := ⟨"GET", BASE_URL d ++ "/state", HEADERS d, none⟩
  ([req], respJson (b req))

/-- `execute_command` (basic_agent.py lines 27-31): `POST /command` with body
`{"action": action, **kwargs}`, decoded as JSON. -/
def execute_command (d : Discovery) (b : Bridge) (action : String)
    (kwargs : List (String × Json)) : List Request × Except PyErr Json :=
  let cmd := Json.obj (("action", Json.str action) :: kwargs)
  let req : Request := ⟨"POST", BASE_URL d ++ "/command", HEADERS d, some cmd⟩
  ([req], respJson (b req))

/-- `batch_execute` (basic_agent.py lines 33-40): `POST /batch` with body
`{"commands": commands, "stopOnError": stop_on_error}`; the flag is a real
parameter (default `True` at the Python level). -/
def batch_execute (d : Discovery) (b : Bridge) (commands : List Json)
    (stop_on_error : Bool) : List Request × Except PyErr Json :=
  let batch := Json.obj [("commands", Json.arr commands),
    ("stopOnError", Json.bool stop_on_error)]
  let req : Request := ⟨"POST", BASE_URL d ++ "/batch", HEADERS d, some batch⟩
  ([req], respJson (b req))

/-- `get_errors` (basic_agent.py lines 42-45): `GET /errors`, decoded as JSON. -/
def get_errors (d : Discovery) (b : Bridge) : List Request × Except PyErr Json :=
  let req : Request := ⟨"GET", BASE_URL d ++ "/errors", HEADERS d, none⟩
  ([req], respJson (b req))

/-- `get_metrics` (basic_agent.py lines 47-50): `GET /metrics`, decoded as
JSON. -/
def get_metrics (d : Discovery) (b : Bridge) : List Request × Except PyErr Json :=
  let req : Request := ⟨"GET", BASE_URL d ++ "/metrics", HEADERS d, none⟩
  ([req], respJson (b req))

/-- One iteration body of the polling loop (basic_agent.py lines 113-122):
decode the `/state` response, read `state["snapshot"]["mode"]`, and on
`mode == "Break"` additionally read `state["snapshot"]["locals"]` and list its
keys.  Returns `true` when the loop breaks. -/
def pollStep (r : Response) : Except PyErr Bool :=
  match respJson r with
  | .error e => .error e
  | .ok state =>
    match pyGetItem state "snapshot" with
    | .error e => .error e
    | .ok snap =>
      match pyGetItem snap "mode" with
      | .error e => .error e
      | .ok mode =>
        if mode == Json.str "Break" then
          match pyGetItem state "snapshot" with
          | .error e => .error e
          | .ok snap2 =>
            match pyGetItem snap2 "locals" with
            | .error e => .error e
            | .ok locals_dict =>
              match pyKeys locals_dict with
              | .error e => .error e
              | .ok _ => .ok true
        else .ok false

/-- The polling loop `for i in range(10)` (basic_agent.py lines 112-124) over
the successive `/state` responses `resps 0, resps 1, ...`.  Returns the list
of iteration indices that executed, the list of iteration indices that reached
the 500ms `time.sleep`, and the error that aborted the loop, if any.  A `Break`
iteration ends the loop before its sleep; an exception also stops the loop
before its sleep. -/
def pollGo (resps : Nat → Response) : Nat → Nat → List Nat × List Nat × Option PyErr
  | 0, _ => ([], [], none)
  | fuel + 1, i =>
    match pollStep (resps i) with
    | .error e => ([i], [], some e)
    | .ok true => ([i], [], none)
    | .ok false =>
      let rest := pollGo resps fuel (i + 1)
      (i :: rest.1, i :: rest.2.1, rest.2.2)

/-- The whole polling loop: 10 iterations starting at index 0. -/
def pollLoop (resps : Nat → Response) : List Nat × List Nat × Option PyErr :=
  pollGo resps 10 0

/-- The mode fetched by one poll: `state["snapshot"]["mode"]` of the decoded
response, when every step succeeds. -/
def modeOf (r : Response) : Option Json :=
  match respJson r with
  | .error _ => none
  | .ok st =>
    match pyGetItem st "snapshot" with
    | .error _ => none
    | .ok sn =>
      match pyGetItem sn "mode" with
      | .error _ => none
      | .ok mode => some mode

end Basic

/-! ### websocket_agent.py -/

namespace WsAgent

/-- `execute_command` (websocket_agent.py lines 22-26): identical to the basic
agent version. -/
def execute_command (d : Discovery) (b : Bridge) (action : String)
    (kwargs : List (String × Json)) : List Request × Except PyErr Json :=
  let cmd := Json.obj (("action", Json.str action) :: kwargs)
  let req : Request := ⟨"POST", BASE_URL d ++ "/command", HEADERS d, some cmd⟩
  ([req], respJson (b req))

/-- `batch_execute` (websocket_agent.py lines 28-32): takes only the command
list; `stopOnError` is hardcoded to `True` in the body. -/
def batch_execute (d : Discovery) (b : Bridge) (commands : List Json) :
    List Request × Except PyErr Json :=
  let batch := Json.obj [("commands", Json.arr commands), ("stopOnError", Json.bool true)]
  let req : Request := ⟨"POST", BASE_URL d ++ "/batch", HEADERS d, some batch⟩
  ([req], respJson (b req))

/-- The `websocket.WebSocketApp(WS_URL, on_message=..., on_error=...,
on_close=..., on_open=...)` construction (websocket_agent.py lines 87-93): no
`header` option is passed, so the connection is opened with the library
default of no extra headers. -/
def ws_app (d : Discovery) : WebSocketApp := ⟨WS_URL d, []⟩

end WsAgent

/-! ### autonomous_debug_agent.py -/

namespace Auto

/-- The mutable agent state set up in `AutonomousDebugAgent.__init__`
(autonomous_debug_agent.py lines 29-33), restricted to the two fields that
hold data across messages; `self.ws` and `self.running` only manage the
connection and are never touched by the message handler. -/
structure AgentState where
  current_state : Json
  error_history : List Json

/-- `__init__`: `current_state = {}` and `error_history = []`. -/
def initState : AgentState := ⟨Json.obj [], []⟩

/-- `execute_command` (autonomous_debug_agent.py lines 35-39). -/
def execute_command (d : Discovery) (b : Bridge) (action : String)
    (kwargs : List (String × Json)) : List Request × Except PyErr Json :=
  let cmd := Json.obj (("action", Json.str action) :: kwargs)
  let req : Request := ⟨"POST", BASE_URL d ++ "/command", HEADERS d, some cmd⟩
  ([req], respJson (b req))

/-- `batch_execute` (autonomous_debug_agent.py lines 41-45): takes only the
command list; `stopOnError` is hardcoded to `False` ("Continue on error"). -/
def batch_execute (d : Discovery) (b : Bridge) (commands : List Json) :
    List Request × Except PyErr Json :=
  let batch := Json.obj [("commands", Json.arr commands), ("stopOnError", Json.bool false)]
  let req : Request := ⟨"POST", BASE_URL d ++ "/batch", HEADERS d, some batch⟩
  ([req], respJson (b req))

/-- `get_errors` (autonomous_debug_agent.py lines 47-50). -/
def get_errors (d : Discovery) (b : Bridge) : List Request × Except PyErr Json :=
  let req : Request := ⟨"GET", BASE_URL d ++ "/errors", HEADERS d, none⟩
  ([req], respJson (b req))

/-- The request sent by `get_output` for a given pane. -/
def outputRequest (d : Discovery) (pane : String) : Request :=
  ⟨"GET", BASE_URL d ++ "/output/" ++ pane, HEADERS d, none⟩

/-- `get_output` (autonomous_debug_agent.py lines 52-57): the only helper that
inspects the status code; returns the raw text on HTTP 200 and `None`
otherwise.  The Python default for the pane argument is `"Build"`. -/
def get_output (d : Discovery) (b : Bridge) (pane : String) :
    List Request × Option String :=
  let req := outputRequest d pane
  let r := b req
  ([req], if r.statusCode = 200 then some r.text else none)

/-- `get_logs` (autonomous_debug_agent.py lines 59-62). -/
def get_logs (d : Discovery) (b : Bridge) : List Request × Except PyErr Json :=
  let req : Request := ⟨"GET", BASE_URL d ++ "/logs", HEADERS d, none⟩
  ([req], respJson (b req))

/-- The suggestion list built by `analyze_error` (autonomous_debug_agent.py
lines 75-89): an if/elif chain of case-insensitive substring tests over the
description, each matching branch appending exactly two suggestions. -/
def suggestionsFor (description : String) (file_path line : Json) : List String :=
  if pyIn "not defined" (pyLower description) || pyIn "does not exist" (pyLower description) then
    ["Missing import or undefined variable",
     "Action: Check imports at " ++ pyStr file_path]
  else if pyIn "null reference" (pyLower description) then
    ["Null reference exception",
     "Action: Add null check at line " ++ pyStr line]
  else if pyIn "type mismatch" (pyLower description) || pyIn "cannot convert" (pyLower description) then
    ["Type conversion issue",
     "Action: Check type compatibility"]
  else []

/-- `analyze_error` (autonomous_debug_agent.py lines 64-89): reads
`description`, `file` and `line` with defaults, prints three header lines,
then the substring matching.  Returns the printed lines, and either the
suggestion list or the error raised (`.get` on a non-dictionary item, or
`.lower()` on a non-string description). -/
def analyze_error (error_item : Json) : List String × Except PyErr (List String) :=
  match error_item with
  | .obj fs =>
    let description := (List.lookup "description" fs).getD (Json.str "")
    let file_path := (List.lookup "file" fs).getD (Json.str "")
    let line := (List.lookup "line" fs).getD (Json.num 0)
    let outs := ["\n🔍 Analyzing error:",
                 "   File: " ++ pyStr file_path ++ ":" ++ pyStr line,
                 "   Error: " ++ pyStr description]
    match description with
    | .str dsc => (outs, .ok (suggestionsFor dsc file_path line))
    | _ => (outs, .error .attributeError)
  | _ => ([], .error .attributeError)

/-- `handle_exception` (autonomous_debug_agent.py lines 120-140): reads
`exception` and `locals` with defaults, prints the header and the first ten
local variable names, then matches the exception text against the two known
exception types. -/
def handle_exception (snapshot : Json) : List String × Option PyErr :=
  match snapshot with
  | .obj fs =>
    let exception := (List.lookup "exception" fs).getD (Json.str "")
    let locals_dict := (List.lookup "locals" fs).getD (Json.obj [])
    let out1 := "\n🐛 Exception Handler:"
    let out2 := "   Type: " ++ pyStr exception
    match pyKeys locals_dict with
    | .error e => ([out1, out2], some e)
    | .ok ks =>
      let out3 := "   Local variables: " ++ pyRepr (Json.arr ((ks.take 10).map Json.str))
      match pyContains "NullReferenceException" exception with
      | .error e => ([out1, out2, out3], some e)
      | .ok true =>
        ([out1, out2, out3,
          "\n💡 Suggestion: Add null checks before object access",
          "   Example: if (obj != null) \x7b obj.Method(); \x7d"], none)
      | .ok false =>
        match pyContains "IndexOutOfRangeException" exception with
        | .error e => ([out1, out2, out3], some e)
        | .ok true =>
          ([out1, out2, out3,
            "\n💡 Suggestion: Validate array/list bounds",
            "   Example: if (index >= 0 && index < array.Length)"], none)
        | .ok false => ([out1, out2, out3], none)
  | _ => ([], some .attributeError)

/-- Sequencing of two print-producing computations: the second runs only when
the first did not raise. -/
def seqRun : List String × Option PyErr → List String × Option PyErr →
    List String × Option PyErr
  | (o, some e), _ => (o, some e)
  | (o, none), (o2, e2) => (o ++ o2, e2)

/-- The `for error in errors[:5]` loop of `analyze_session`
(autonomous_debug_agent.py lines 150-153): analyze each error and print its
first two suggestions. -/
def errorsLoop : List Json → List String × Option PyErr
  | [] => ([], none)
  | e :: es =>
    let (outs, res) := analyze_error e
    match res with
    | .error err => (outs, some err)
    | .ok suggs =>
      seqRun (outs ++ (suggs.take 2).map (fun s => "      💡 " ++ s), none) (errorsLoop es)

/-- The build-errors section of `analyze_session` (autonomous_debug_agent.py
lines 147-153): under `if errors:`, print the count and loop over the first
five items.  `len()` works on lists, strings and dictionaries; slicing a
dictionary raises TypeError, iterating the characters of a string makes
`analyze_error` raise AttributeError on its first `.get`. -/
def errorsReport (errors : Json) : List String × Option PyErr :=
  if pyTruthy errors then
    match errors with
    | .arr l =>
      seqRun (["   ⚠️  " ++ toString l.length ++ " errors/warnings found:"], none)
        (errorsLoop (l.take 5))
    | .str s => (["   ⚠️  " ++ toString s.length ++ " errors/warnings found:"],
        some .attributeError)
    | .obj fs => (["   ⚠️  " ++ toString fs.length ++ " errors/warnings found:"],
        some .typeError)
    | _ => ([], some .typeError)
  else ([], none)

/-- The build-output section of `analyze_session` (autonomous_debug_agent.py
lines 156-158): `if build_output and "error" in build_output.lower()`. -/
def outputReport (build_output : Option String) : List String :=
  match build_output with
  | some s =>
    if s.isEmpty then []
    else if pyIn "error" (pyLower s) then
      ["   📝 Build output contains errors (check /output/Build)"]
    else []
  | none => []

/-- `log.get('durationMs', 0)` as consumed by `sum(...)`: contributes the
stored number, `0` when the field is absent; a non-numeric value or a
non-dictionary entry makes the sum raise. -/
def durationOf (log : Json) : Option Int :=
  match log with
  | .obj fs =>
    match List.lookup "durationMs" fs with
    | some (.num n) => some n
    | some _ => none
    | none => some 0
  | _ => none

/-- `sum(log.get('durationMs', 0) for log in logs)`. -/
def durSum : List Json → Option Int
  | [] => some 0
  | l :: ls =>
    match durationOf l, durSum ls with
    | some a, some b => some (a + b)
    | _, _ => none

/-- Python true division `a / n`, keeping the exact quotient as a
numerator-denominator pair; `none` marks a ZeroDivisionError. -/
def pyDiv (a : Int) (n : Nat) : Option (Int × Nat) :=
  if n = 0 then none else some (a, n)

/-- Rendering of `f"{a/n:.1f}"` over the exact quotient (tie-breaking of
Python float formatting is approximated by round-half-up). -/
def fmt1 (a : Int) (n : Nat) : String :=
  let r : Int := Int.fdiv (20 * a + n) (2 * n)
  let sign := if r < 0 then "-" else ""
  sign ++ toString (r.natAbs / 10) ++ "." ++ toString (r.natAbs % 10)

/-- The request-logs section of `analyze_session` (autonomous_debug_agent.py
lines 161-164): under `if logs:`, compute
`sum(log.get('durationMs', 0) for log in logs) / len(logs)` and print it. -/
def logsReport (logs : Json) : List String × Option PyErr :=
  if pyTruthy logs then
    match logs with
    | .arr l =>
      match durSum l with
      | none => ([], some .typeError)
      | some s =>
        match pyDiv s l.length with
        | none => ([], some .zeroDivisionError)
        | some avg => (["   ⏱️  Average API response time: " ++ fmt1 avg.1 avg.2 ++ "ms"], none)
    | .str _ => ([], some .attributeError)
    | .obj _ => ([], some .attributeError)
    | _ => ([], some .typeError)
  else ([], none)

/-- `analyze_session` (autonomous_debug_agent.py lines 142-166): header, build
errors section, build output section, request logs section, footer. -/
def analyze_session (d : Discovery) (b : Bridge) : List String × Option PyErr :=
  seqRun (["\n📊 Session Analysis:"], none)
    (seqRun (match (get_errors d b).2 with
      | .error e => ([], some e)
      | .ok errors => errorsReport errors)
      (seqRun (outputReport (get_output d b "Build").2, none)
        (seqRun (match (get_logs d b).2 with
          | .error e => ([], some e)
          | .ok logs => logsReport logs)
          (["\n✅ Analysis complete"], none))))

/-- The `type` field of a message, as read by `data.get("type")` when the
message is a dictionary. -/
def msgTypeOf (data : Json) : Option Json :=
  match data with
  | .obj fs => List.lookup "type" fs
  | _ => none

/-- The snapshot a message assigns to `self.current_state`: present exactly
when the message is a dictionary of type `"stateChange"` carrying a
`"snapshot"` key (the assignment at line 101 happens right after the
`data["snapshot"]` access succeeds and before anything else can raise). -/
def msgSnapshot (data : Json) : Option Json :=
  match data with
  | .obj fs =>
    if optIsStr (List.lookup "type" fs) "stateChange" then
      List.lookup "snapshot" fs
    else none
  | _ => none

/-- The body of the `stateChange` branch after `self.current_state = snapshot`
(autonomous_debug_agent.py lines 102-118): read `snapshot["mode"]`, print it,
then dispatch on `Break` (exception handling or location print) and `Design`
(session analysis). -/
def stateChangeRun (d : Discovery) (b : Bridge) (snapshot : Json) :
    List String × Option PyErr :=
  match pyGetItem snapshot "mode" with
  | .error e => ([], some e)
  | .ok mode =>
    let header := "\n🔔 State: " ++ pyStr mode
    if mode == Json.str "Break" then
      match pyGet snapshot "exception" with
      | .error e => ([header], some e)
      | .ok exc? =>
        let exception := exc?.getD Json.null
        if pyTruthy exception then
          seqRun ([header, "   ⚠️  Exception: " ++ pyStr exception], none)
            (handle_exception snapshot)
        else
          match pyGet snapshot "file", pyGet snapshot "line" with
          | .ok f?, .ok l? =>
            ([header, "   📍 " ++ pyStr (f?.getD Json.null) ++ ":" ++ pyStr (l?.getD Json.null)],
              none)
          | .error e, _ => ([header], some e)
          | _, .error e => ([header], some e)
    else if mode == Json.str "Design" then
      seqRun ([header, "   ⏹️  Session ended"], none) (analyze_session d b)
    else ([header], none)

/-- The branches of `on_message` that do not assign `current_state`
(autonomous_debug_agent.py lines 96-97 and the silent fall-through): the
`connected` print, the KeyError of a `stateChange` message without a
`snapshot`, the AttributeError of a non-dictionary message, and the ignored
remaining types (`pong` has no branch in this script). -/
def nonStateRun (data : Json) : List String × Option PyErr :=
  match data with
  | .obj fs =>
    let event_type := List.lookup "type" fs
    if optIsStr event_type "connected" then
      match List.lookup "connectionId" fs with
      | some cid => (["✅ Agent connected: " ++ pyStr cid], none)
      | none => ([], some .keyError)
    else if optIsStr event_type "stateChange" then
      ([], some .keyError)
    else ([], none)
  | _ => ([], some .attributeError)

/-- `on_message` on an already decoded message (autonomous_debug_agent.py
lines 91-118).  The returned state reflects the partial-mutation semantics of
the Python handler: `current_state` is updated exactly when the message is a
`stateChange` dictionary whose `snapshot` access succeeds, even if a later
step of the same handler raises. -/
def on_message_data (d : Discovery) (b : Bridge) (s : AgentState) (data : Json) :
    AgentState × List String × Option PyErr :=
  match msgSnapshot data with
  | some snapshot => ({ s with current_state := snapshot }, stateChangeRun d b snapshot)
  | none => (s, nonStateRun data)

/-- `on_message` on the raw WebSocket text: `data = json.loads(message)` then
the dispatch. -/
def on_message (d : Discovery) (b : Bridge) (s : AgentState) (message : String) :
    AgentState × List String × Option PyErr :=
  match parseJson message with
  | none => (s, [], some .valueError)
  | some data => on_message_data d b s data

/-- The agent state after a sequence of messages has been handled. -/
def processSeq (d : Discovery) (b : Bridge) (s : AgentState) (msgs : List Json) :
    AgentState :=
  msgs.foldl (fun st m => (on_message_data d b st m).1) s

/-- The snapshot of the most recent `stateChange` message of a sequence, or
the initial empty dictionary when there is none. -/
def lastSnapshot (msgs : List Json) : Json :=
  msgs.foldl (fun a m => (msgSnapshot m).getD a) (Json.obj [])

/-- The `websocket.WebSocketApp(WS_URL, on_message=..., on_error=...,
on_close=..., on_open=...)` construction in `start`
(autonomous_debug_agent.py lines 206-212): no `header` option is passed, so
the connection is opened with the library default of no extra headers. -/
def ws_app (d : Discovery) : WebSocketApp := ⟨WS_URL d, []⟩

end Auto

/-! ### Concrete fixtures used by witnesses and counterexamples. -/

/-- A sample discovery record. -/
def d0 : Discovery := ⟨8080, "secret-key", "X-Api-Key"⟩

/-- A bridge whose every response body is the mock reply of the spec,
`\x7b"ok": true\x7d`. -/
def okBridge : Bridge := fun _ => ⟨200, "\x7b\"ok\": true\x7d"⟩

/-- A bridge echoing the batch result of the spec:
`successCount=3, failureCount=0`. -/
def batchBridge : Bridge := fun _ => ⟨200, "\x7b\"ok\":true,\"successCount\":3,\"failureCount\":0\x7d"⟩

/-- Three sample commands, as in the 3-command batch of the spec. -/
def cmds3 : List Json :=
  [Json.obj [("action", Json.str "setBreakpoint"), ("file", Json.str "Program.cs"),
      ("line", Json.num 15)],
   Json.obj [("action", Json.str "setBreakpoint"), ("file", Json.str "Worker.cs"),
      ("line", Json.num 30)],
   Json.obj [("action", Json.str "setBreakpoint"), ("file", Json.str "Service.cs"),
      ("line", Json.num 45)]]

/-- The WebSocket message of the spec: a Break state change with a
NullReferenceException and an empty locals mapping. -/
def c4msg : String :=
  "\x7b\"type\":\"stateChange\",\"snapshot\":\x7b\"mode\":\"Break\",\"exception\":\"NullReferenceException\",\"locals\":\x7b\x7d\x7d\x7d"

/-- The mock `/errors` item of the spec. -/
def specErrItem : Json :=
  Json.obj [("file", Json.str "a.cs"), ("line", Json.num 10),
    ("description", Json.str "X is not defined")]

/-- A `/state` response whose snapshot is in Break mode. -/
def breakResp : Response :=
  ⟨200, "\x7b\"snapshot\": \x7b\"mode\": \"Break\", \"locals\": \x7b\x7d\x7d\x7d"⟩

/-- A `/state` response whose snapshot is in Run mode. -/
def runResp : Response := ⟨200, "\x7b\"snapshot\": \x7b\"mode\": \"Run\"\x7d\x7d"⟩

/-- A response sequence that hits Break on the third poll. -/
def breakAt2 : Nat → Response := fun i => if i = 2 then breakResp else runResp

/-- Two bridges answering with the same bodies but different status codes. -/
def bodyOnly200 : Bridge := fun _ => ⟨200, "[]"⟩

/-- See `bodyOnly200`: same body, failing status. -/
def bodyOnly500 : Bridge := fun _ => ⟨500, "[]"⟩

/-- A `pong` event message. -/
def pongMsg : Json := Json.obj [("type", Json.str "pong")]

/-- A `connected` event message. -/
def connMsg : Json :=
  Json.obj [("type", Json.str "connected"), ("connectionId", Json.str "abc123")]

/-- A Run-mode snapshot. -/
def runSnap : Json := Json.obj [("mode", Json.str "Run")]

/-- A `stateChange` event message carrying `runSnap`. -/
def scMsg : Json := Json.obj [("type", Json.str "stateChange"), ("snapshot", runSnap)]

/-- Detector for the ZeroDivisionError outcome. -/
def isZeroDivErr : Option PyErr → Bool
  | some .zeroDivisionError => true
  | _ => false

/-- The request that `execute_command` puts on the wire, in all three
scripts: `POST /command` with the command dictionary as JSON body and the
discovery headers. -/
def commandRequest (d : Discovery) (action : String) (kwargs : List (String × Json)) :
    Request :=
  ⟨"POST", BASE_URL d ++ "/command", HEADERS d,
    some (Json.obj (("action", Json.str action) :: kwargs))⟩

/-- The request that a batch call puts on the wire: `POST /batch` with body
`\x7b"commands": commands, "stopOnError": flag\x7d` and the discovery headers. -/
def batchRequest (d : Discovery) (commands : List Json) (flag : Bool) : Request :=
  ⟨"POST", BASE_URL d ++ "/batch", HEADERS d,
    some (Json.obj [("commands", Json.arr commands), ("stopOnError", Json.bool flag)])⟩

/-! ### Helper lemmas. -/

theorem toNat_ofNat_of_lt (n : Nat) (h : n < 55296) : (Char.ofNat n).toNat = n := by
  have hv : n.isValidChar := Or.inl h
  simp [Char.ofNat, hv, Char.ofNatAux, Char.toNat, UInt32.toNat]

theorem pyLowerChar_idem (c : Char) : pyLowerChar (pyLowerChar c) = pyLowerChar c := by
  unfold pyLowerChar
  by_cases h : 65 ≤ c.toNat ∧ c.toNat ≤ 90
  · rw [if_pos h]
    have ht : (Char.ofNat (c.toNat + 32)).toNat = c.toNat + 32 :=
      toNat_ofNat_of_lt _ (by omega)
    rw [if_neg (by rw [ht]; omega)]
  · rw [if_neg h, if_neg h]

theorem pyLower_idem (s : String) : pyLower (pyLower s) = pyLower s := by
  unfold pyLower
  simp only [String.toList, String.mk]
  congr 1
  simp only [List.map_map]
  exact List.map_congr_left fun c _ => pyLowerChar_idem c

theorem json_beq_str_iff (m : Json) (t : String) :
    (m == Json.str t) = true ↔ m = Json.str t := by
  cases m <;> simp [BEq.beq, Json.beq]

theorem optIsStr_iff (o : Option Json) (t : String) :
    optIsStr o t = true ↔ o = some (Json.str t) := by
  cases o with
  | none => simp [optIsStr]
  | some m => simpa [optIsStr] using json_beq_str_iff m t

/-! ### Claim C1. -/

/-- Claim C1: for every action string and keyword-field mapping,
`execute_command(action, fields...)` sends `POST /command` with the JSON body
consisting of the action and the fields, and returns the decoded JSON response
body unmodified; the same contract holds for the identical helper of
websocket_agent.py. -/
theorem C1_execute_command_contract (d : Discovery) (b : Bridge) (action : String)
    (kwargs : List (String × Json)) :
    (Basic.execute_command d b action kwargs).1 = [commandRequest d action kwargs] ∧
    (∀ j : Json, parseJson (b (commandRequest d action kwargs)).text = some j →
      (Basic.execute_command d b action kwargs).2 = .ok j) ∧
    WsAgent.execute_command d b action kwargs = Basic.execute_command d b action kwargs := by
  refine ⟨rfl, ?_, rfl⟩
  intro j hj
  simp [Basic.execute_command, respJson, commandRequest] at hj ⊢
  rw [hj]

/-- Witness for C1: against a mock bridge whose `/command` endpoint returns
the body `\x7b"ok": true\x7d`, `execute_command("build")` returns exactly that
decoded structure. -/
theorem C1_execute_command_witness :
    (Basic.execute_command d0 okBridge "build" []).2 =
      .ok (Json.obj [("ok", Json.bool true)]) :=
  (C1_execute_command_contract d0 okBridge "build" []).2.1
    (Json.obj [("ok", Json.bool true)]) rfl

/-! ### Claim C2. -/

/-- Counterexample to claim C2: the claim asserts that
`batch_execute(commands, stopOnError)` — one contract in which the caller
chooses the `stopOnError` flag of the `POST /batch` body — is the pattern
repeated in all three scripts.  In fact only basic_agent.py exposes the flag
as a parameter: for the very same three commands, websocket_agent.py always
sends `stopOnError = true` while autonomous_debug_agent.py always sends
`stopOnError = false`, and neither function accepts a flag argument at all, so
no caller-chosen flag is ever transmitted by those two scripts. -/
theorem C2_stopOnError_counterexample :
    (WsAgent.batch_execute d0 okBridge cmds3).1 = [batchRequest d0 cmds3 true] ∧
    (Auto.batch_execute d0 okBridge cmds3).1 = [batchRequest d0 cmds3 false] ∧
    (bodyField (batchRequest d0 cmds3 true) "stopOnError" == 
      bodyField (batchRequest d0 cmds3 false) "stopOnError") = false :=
  ⟨rfl, rfl, rfl⟩

/-- Claim C2 as amended: every batch helper sends `POST /batch` with the JSON
body consisting of the commands and a `stopOnError` flag and returns the
decoded response unmodified (hence it reports exactly the counts the bridge
echoes); but the flag is a caller-chosen parameter only in basic_agent.py,
while websocket_agent.py fixes it to true and autonomous_debug_agent.py fixes
it to false. -/
theorem C2_batch_contract (d : Discovery) (b : Bridge) (commands : List Json)
    (stop_on_error : Bool) :
    (Basic.batch_execute d b commands stop_on_error).1 =
      [batchRequest d commands stop_on_error] ∧
    (∀ j : Json, parseJson (b (batchRequest d commands stop_on_error)).text = some j →
      (Basic.batch_execute d b commands stop_on_error).2 = .ok j) ∧
    (WsAgent.batch_execute d b commands).1 = [batchRequest d commands true] ∧
    (∀ j : Json, parseJson (b (batchRequest d commands true)).text = some j →
      (WsAgent.batch_execute d b commands).2 = .ok j) ∧
    (Auto.batch_execute d b commands).1 = [batchRequest d commands false] ∧
    (∀ j : Json, parseJson (b (batchRequest d commands false)).text = some j →
      (Auto.batch_execute d b commands).2 = .ok j) := by
  refine ⟨rfl, ?_, rfl, ?_, rfl, ?_⟩ <;> intro j hj
  · simp [Basic.batch_execute, respJson, batchRequest] at hj ⊢
    rw [hj]
  · simp [WsAgent.batch_execute, respJson, batchRequest] at hj ⊢
    rw [hj]
  · simp [Auto.batch_execute, respJson, batchRequest] at hj ⊢
    rw [hj]

/-- Witness for C2: against a mock `/batch` endpoint echoing
`successCount=3, failureCount=0`, a 3-command batch returns exactly the echoed
structure, so it reports exactly those counts. -/
theorem C2_batch_witness :
    (Basic.batch_execute d0 batchBridge cmds3 true).2 =
      .ok (Json.obj [("ok", Json.bool true), ("successCount", Json.num 3),
        ("failureCount", Json.num 0)]) ∧
    (Auto.batch_execute d0 batchBridge cmds3).2 =
      .ok (Json.obj [("ok", Json.bool true), ("successCount", Json.num 3),
        ("failureCount", Json.num 0)]) :=
  ⟨(C2_batch_contract d0 batchBridge cmds3 true).2.1 _ rfl,
   (C2_batch_contract d0 batchBridge cmds3 true).2.2.2.2.2 _ rfl⟩

/-! ### Claim C3. -/

theorem pollGo_length (resps : Nat → Response) :
    ∀ fuel i, (Basic.pollGo resps fuel i).1.length ≤ fuel ∧
      (Basic.pollGo resps fuel i).2.1.length ≤ fuel := by
  intro fuel
  induction fuel with
  | zero => intro i; simp [Basic.pollGo]
  | succ n ih =>
    intro i
    cases hs : Basic.pollStep (resps i) with
    | error e => simp [Basic.pollGo, hs]
    | ok b =>
      cases b with
      | true => simp [Basic.pollGo, hs]
      | false =>
        obtain ⟨h1, h2⟩ := ih (i + 1)
        simp only [Basic.pollGo, hs, List.length_cons]
        omega

theorem pollGo_all_false (resps : Nat → Response) :
    ∀ fuel i, (∀ j, j < fuel → Basic.pollStep (resps (i + j)) = .ok false) →
      Basic.pollGo resps fuel i = (List.range' i fuel, List.range' i fuel, none) := by
  intro fuel
  induction fuel with
  | zero => intro i _; simp [Basic.pollGo, List.range']
  | succ n ih =>
    intro i h
    have h0 : Basic.pollStep (resps i) = .ok false := by simpa using h 0 (Nat.succ_pos n)
    have hrest := ih (i + 1) (fun j hj => by
      rw [show i + 1 + j = i + (j + 1) by omega]
      exact h (j + 1) (by omega))
    simp [Basic.pollGo, h0, hrest, List.range']

theorem pollGo_break (resps : Nat → Response) :
    ∀ m fuel i, (∀ j, j < m → Basic.pollStep (resps (i + j)) = .ok false) →
      m < fuel → Basic.pollStep (resps (i + m)) ≠ .ok false →
      (Basic.pollGo resps fuel i).1 = List.range' i (m + 1) ∧
      (Basic.pollGo resps fuel i).2.1 = List.range' i m := by
  intro m
  induction m with
  | zero =>
    intro fuel i _ hlt hne
    match fuel, hlt with
    | n + 1, _ =>
      rw [show i + 0 = i by omega] at hne
      cases hs : Basic.pollStep (resps i) with
      | error e => simp [Basic.pollGo, hs, List.range']
      | ok b =>
        cases b with
        | true => simp [Basic.pollGo, hs, List.range']
        | false => exact absurd hs hne
  | succ k ih =>
    intro fuel i h hlt hne
    match fuel, hlt with
    | n + 1, hlt =>
      have h0 : Basic.pollStep (resps i) = .ok false := by simpa using h 0 (by omega)
      have hrest := ih n (i + 1)
        (fun j hj => by
          rw [show i + 1 + j = i + (j + 1) by omega]
          exact h (j + 1) (by omega))
        (by omega)
        (by rw [show i + 1 + k = i + (k + 1) by omega]; exact hne)
      simp [Basic.pollGo, h0, hrest.1, hrest.2, List.range']

theorem modeOf_break_pollStep (r : Response)
    (hm : Basic.modeOf r = some (Json.str "Break")) : Basic.pollStep r ≠ .ok false := by
  unfold Basic.modeOf at hm
  unfold Basic.pollStep
  cases h1 : respJson r with
  | error e => simp [h1] at hm
  | ok st =>
    simp only [h1] at hm ⊢
    cases h2 : pyGetItem st "snapshot" with
    | error e => simp [h2] at hm
    | ok sn =>
      simp only [h2] at hm ⊢
      cases h3 : pyGetItem sn "mode" with
      | error e => simp [h3] at hm
      | ok mode =>
        simp only [h3] at hm ⊢
        have hmode : mode = Json.str "Break" := by simpa using hm
        subst hmode
        rw [if_pos ((json_beq_str_iff _ _).mpr rfl)]
        cases h4 : pyGetItem sn "locals" with
        | error e => simp [h4]
        | ok locals_dict =>
          cases h5 : pyKeys locals_dict with
          | error e => simp [h4, h5]
          | ok ks => simp [h4, h5]

theorem modeOf_not_break_pollStep (r : Response) (m : Json)
    (hm : Basic.modeOf r = some m) (hne : m ≠ Json.str "Break") :
    Basic.pollStep r = .ok false := by
  unfold Basic.modeOf at hm
  unfold Basic.pollStep
  cases h1 : respJson r with
  | error e => simp [h1] at hm
  | ok st =>
    simp only [h1] at hm ⊢
    cases h2 : pyGetItem st "snapshot" with
    | error e => simp [h2] at hm
    | ok sn =>
      simp only [h2] at hm ⊢
      cases h3 : pyGetItem sn "mode" with
      | error e => simp [h3] at hm
      | ok mode =>
        simp only [h3] at hm ⊢
        have hmode : mode = m := by simpa using hm
        subst hmode
        rw [if_neg]
        intro hc
        exact hne ((json_beq_str_iff _ _).mp hc)

/-- Claim C3: for every sequence of `/state` responses, the polling loop of
basic_agent.py executes at most 10 iterations and sleeps at most 10 times; if
every one of the first 10 fetched snapshots is well formed with a mode other
than `"Break"`, the loop runs exactly the 10 iterations (each with its sleep);
and on the first iteration `k` whose fetched mode equals `"Break"`, the loop
stops after iterations `0..k` without performing the 500ms sleep of iteration
`k`.  The final conjunct records that a well-formed fetched mode other than
`"Break"` always continues the loop. -/
theorem C3_poll_loop_terminates (resps : Nat → Response) :
    (Basic.pollLoop resps).1.length ≤ 10 ∧
    (Basic.pollLoop resps).2.1.length ≤ 10 ∧
    ((∀ i, i < 10 → Basic.pollStep (resps i) = .ok false) →
      (Basic.pollLoop resps).1 = List.range 10 ∧
      (Basic.pollLoop resps).2.1 = List.range 10) ∧
    (∀ k, k < 10 → (∀ j, j < k → Basic.pollStep (resps j) = .ok false) →
      Basic.modeOf (resps k) = some (Json.str "Break") →
      (Basic.pollLoop resps).1 = List.range (k + 1) ∧
      k ∉ (Basic.pollLoop resps).2.1) ∧
    (∀ (r : Response) (m : Json), Basic.modeOf r = some m → m ≠ Json.str "Break" →
      Basic.pollStep r = .ok false) := by
  refine ⟨(pollGo_length resps 10 0).1, (pollGo_length resps 10 0).2, ?_, ?_, ?_⟩
  · intro h
    have := pollGo_all_false resps 10 0 (fun j hj => by simpa using h j hj)
    unfold Basic.pollLoop
    rw [this, List.range_eq_range']
    exact ⟨rfl, rfl⟩
  · intro k hk hprev hmode
    have hne : Basic.pollStep (resps (0 + k)) ≠ .ok false := by
      rw [show 0 + k = k by omega]
      exact modeOf_break_pollStep (resps k) hmode
    have := pollGo_break resps k 10 0 (fun j hj => by simpa using hprev j hj) hk hne
    unfold Basic.pollLoop
    constructor
    · rw [this.1, List.range_eq_range']
    · rw [this.2]
      simp [List.mem_range']
  · exact modeOf_not_break_pollStep

/-- Witness for C3: a response sequence hitting Break on the third poll runs
exactly iterations 0, 1, 2 and skips the sleep of iteration 2; a sequence that
always answers Run mode runs exactly 10 iterations. -/
theorem C3_poll_loop_witness :
    (Basic.pollLoop breakAt2).1 = List.range 3 ∧
    2 ∉ (Basic.pollLoop breakAt2).2.1 ∧
    (Basic.pollLoop (fun _ => runResp)).1 = List.range 10 := by
  refine ⟨?_, ?_, ?_⟩
  · exact ((C3_poll_loop_terminates breakAt2).2.2.2.1 2 (by omega)
      (fun j hj => by interval_cases j <;> rfl) rfl).1
  · exact ((C3_poll_loop_terminates breakAt2).2.2.2.1 2 (by omega)
      (fun j hj => by interval_cases j <;> rfl) rfl).2
  · exact ((C3_poll_loop_terminates (fun _ => runResp)).2.2.1 (fun i _ => rfl)).1

/-! ### Claim C4. -/

/-- Claim C4: on the WebSocket message carrying a Break stateChange with a
NullReferenceException and an empty locals mapping, the handler of
autonomous_debug_agent.py prints the null-check suggestion and completes
without raising any error. -/
theorem C4_break_null_suggestion :
    (Auto.on_message d0 okBridge Auto.initState c4msg).2.2 = none ∧
    "\n💡 Suggestion: Add null checks before object access" ∈
      (Auto.on_message d0 okBridge Auto.initState c4msg).2.1 := by
  exact ⟨rfl, by decide⟩

/-! ### Claim C5. -/

/-- Claim C5: for every error item whose description is a string containing
"not defined" (after lowercasing), `analyze_error` returns a suggestion list
whose first element is "Missing import or undefined variable". -/
theorem C5_not_defined_classification (fs : List (String × Json)) (dsc : String)
    (hdesc : List.lookup "description" fs = some (Json.str dsc))
    (hin : pyIn "not defined" (pyLower dsc) = true) :
    ∃ rest, (Auto.analyze_error (Json.obj fs)).2 =
      .ok ("Missing import or undefined variable" :: rest) := by
  refine ⟨["Action: Check imports at " ++ pyStr ((List.lookup "file" fs).getD (Json.str ""))], ?_⟩
  simp [Auto.analyze_error, hdesc, Auto.suggestionsFor, hin]

/-- Witness for C5: the mock `/errors` item of the spec, with description
"X is not defined", is classified as a missing import or undefined variable. -/
theorem C5_not_defined_witness :
    ∃ rest, (Auto.analyze_error specErrItem).2 =
      .ok ("Missing import or undefined variable" :: rest) :=
  C5_not_defined_classification
    [("file", Json.str "a.cs"), ("line", Json.num 10),
     ("description", Json.str "X is not defined")]
    "X is not defined" rfl rfl

/-! ### Claim C6. -/

/-- Claim C6: among the HTTP helpers of the three scripts, `get_output` is the
only one that inspects the status code.  Every JSON helper is insensitive to
the status code: two bridges whose responses agree on body text (but may
differ arbitrarily in status) yield identical results.  `get_output` returns
the raw response text exactly when the status code is 200 and `None`
otherwise. -/
theorem C6_status_code_handling (d : Discovery) (b₁ b₂ : Bridge)
    (htext : ∀ r, (b₁ r).text = (b₂ r).text) :
    (Basic.get_state d b₁).2 = (Basic.get_state d b₂).2 ∧
    (∀ a kw, (Basic.execute_command d b₁ a kw).2 = (Basic.execute_command d b₂ a kw).2) ∧
    (∀ cs f, (Basic.batch_execute d b₁ cs f).2 = (Basic.batch_execute d b₂ cs f).2) ∧
    (Basic.get_errors d b₁).2 = (Basic.get_errors d b₂).2 ∧
    (Basic.get_metrics d b₁).2 = (Basic.get_metrics d b₂).2 ∧
    (∀ a kw, (WsAgent.execute_command d b₁ a kw).2 = (WsAgent.execute_command d b₂ a kw).2) ∧
    (∀ cs, (WsAgent.batch_execute d b₁ cs).2 = (WsAgent.batch_execute d b₂ cs).2) ∧
    (∀ a kw, (Auto.execute_command d b₁ a kw).2 = (Auto.execute_command d b₂ a kw).2) ∧
    (∀ cs, (Auto.batch_execute d b₁ cs).2 = (Auto.batch_execute d b₂ cs).2) ∧
    (Auto.get_errors d b₁).2 = (Auto.get_errors d b₂).2 ∧
    (Auto.get_logs d b₁).2 = (Auto.get_logs d b₂).2 ∧
    (∀ (b : Bridge) (pane : String),
      ((b (Auto.outputRequest d pane)).statusCode = 200 →
        (Auto.get_output d b pane).2 = some (b (Auto.outputRequest d pane)).text) ∧
      ((b (Auto.outputRequest d pane)).statusCode ≠ 200 →
        (Auto.get_output d b pane).2 = none)) := by
  have key : ∀ r : Request, respJson (b₁ r) = respJson (b₂ r) := fun r => by
    unfold respJson
    rw [htext r]
  exact ⟨key _, fun a kw => key _, fun cs f => key _, key _, key _, fun a kw => key _,
    fun cs => key _, fun a kw => key _, fun cs => key _, key _, key _,
    fun b pane => ⟨fun h => by simp [Auto.get_output, h], fun h => by simp [Auto.get_output, h]⟩⟩

/-- Witness for C6: two bridges answering `[]` with statuses 200 and 500 give
the same decoded `get_state` result, while `get_output` returns the raw text
under status 200 and `None` under status 500. -/
theorem C6_status_code_witness :
    (Basic.get_state d0 bodyOnly200).2 = (Basic.get_state d0 bodyOnly500).2 ∧
    (Auto.get_output d0 bodyOnly200 "Build").2 = some "[]" ∧
    (Auto.get_output d0 bodyOnly500 "Build").2 = none := by
  refine ⟨(C6_status_code_handling d0 bodyOnly200 bodyOnly500 (fun _ => rfl)).1, ?_, ?_⟩
  · exact ((C6_status_code_handling d0 bodyOnly200 bodyOnly500
      (fun _ => rfl)).2.2.2.2.2.2.2.2.2.2.2 bodyOnly200 "Build").1 rfl
  · exact ((C6_status_code_handling d0 bodyOnly200 bodyOnly500
      (fun _ => rfl)).2.2.2.2.2.2.2.2.2.2.2 bodyOnly500 "Build").2 (by decide)

/-! ### Claim C7. -/

/-- Counterexample to claim C7: the claim asserts that every request,
including the WebSocket connection to `/ws`, carries the API key in the
`keyHeader` header.  In both websocket_agent.py and autonomous_debug_agent.py
the `websocket.WebSocketApp` is constructed without any header option, so the
connection to `/ws` is opened with no API-key header at all. -/
theorem C7_ws_no_key_counterexample :
    ((Auto.ws_app d0).header.contains (d0.keyHeader, d0.defaultApiKey)) = false ∧
    ((WsAgent.ws_app d0).header.contains (d0.keyHeader, d0.defaultApiKey)) = false ∧
    (Auto.ws_app d0).url = WS_URL d0 ∧
    (WsAgent.ws_app d0).url = WS_URL d0 :=
  ⟨rfl, rfl, rfl, rfl⟩

/-- Claim C7 as amended: every HTTP request issued by the scripts carries the
discovery API key in a header named by the discovery `keyHeader` field (the
headers of every sent request are exactly `HEADERS`), but the WebSocket
connections to `/ws` are opened without any extra header. -/
theorem C7_headers_amended (d : Discovery) (b : Bridge) :
    ((Basic.get_state d b).1.map Request.headers = [HEADERS d]) ∧
    (∀ a kw, (Basic.execute_command d b a kw).1.map Request.headers = [HEADERS d]) ∧
    (∀ cs f, (Basic.batch_execute d b cs f).1.map Request.headers = [HEADERS d]) ∧
    ((Basic.get_errors d b).1.map Request.headers = [HEADERS d]) ∧
    ((Basic.get_metrics d b).1.map Request.headers = [HEADERS d]) ∧
    (∀ a kw, (WsAgent.execute_command d b a kw).1.map Request.headers = [HEADERS d]) ∧
    (∀ cs, (WsAgent.batch_execute d b cs).1.map Request.headers = [HEADERS d]) ∧
    (∀ a kw, (Auto.execute_command d b a kw).1.map Request.headers = [HEADERS d]) ∧
    (∀ cs, (Auto.batch_execute d b cs).1.map Request.headers = [HEADERS d]) ∧
    ((Auto.get_errors d b).1.map Request.headers = [HEADERS d]) ∧
    (∀ pane, (Auto.get_output d b pane).1.map Request.headers = [HEADERS d]) ∧
    ((Auto.get_logs d b).1.map Request.headers = [HEADERS d]) ∧
    (WsAgent.ws_app d).header = [] ∧
    (Auto.ws_app d).header = [] :=
  ⟨rfl, fun _ _ => rfl, fun _ _ => rfl, rfl, rfl, fun _ _ => rfl, fun _ => rfl,
   fun _ _ => rfl, fun _ => rfl, rfl, fun _ => rfl, rfl, rfl, rfl⟩

/-! ### Claim C8. -/

theorem on_message_data_error_history (d : Discovery) (b : Bridge)
    (s : Auto.AgentState) (m : Json) :
    ((Auto.on_message_data d b s m).1).error_history = s.error_history := by
  cases h : Auto.msgSnapshot m <;> simp [Auto.on_message_data, h]

theorem on_message_data_current_state (d : Discovery) (b : Bridge)
    (s : Auto.AgentState) (m : Json) :
    ((Auto.on_message_data d b s m).1).current_state =
      (Auto.msgSnapshot m).getD s.current_state := by
  cases h : Auto.msgSnapshot m <;> simp [Auto.on_message_data, h]

theorem processSeq_cons (d : Discovery) (b : Bridge) (s : Auto.AgentState)
    (m : Json) (ms : List Json) :
    Auto.processSeq d b s (m :: ms) =
      Auto.processSeq d b (Auto.on_message_data d b s m).1 ms := rfl

theorem processSeq_error_history (d : Discovery) (b : Bridge) :
    ∀ (msgs : List Json) (s : Auto.AgentState),
      (Auto.processSeq d b s msgs).error_history = s.error_history := by
  intro msgs
  induction msgs with
  | nil => intro s; rfl
  | cons m ms ih =>
    intro s
    rw [processSeq_cons, ih, on_message_data_error_history]

theorem processSeq_current_state (d : Discovery) (b : Bridge) :
    ∀ (msgs : List Json) (s : Auto.AgentState),
      (Auto.processSeq d b s msgs).current_state =
        msgs.foldl (fun a m => (Auto.msgSnapshot m).getD a) s.current_state := by
  intro msgs
  induction msgs with
  | nil => intro s; rfl
  | cons m ms ih =>
    intro s
    rw [processSeq_cons, ih, on_message_data_current_state, List.foldl_cons]

theorem foldl_snapshot_none :
    ∀ (msgs : List Json) (a : Json), (∀ m ∈ msgs, Auto.msgSnapshot m = none) →
      msgs.foldl (fun a m => (Auto.msgSnapshot m).getD a) a = a := by
  intro msgs
  induction msgs with
  | nil => intro a _; rfl
  | cons m ms ih =>
    intro a h
    rw [List.foldl_cons, h m (List.mem_cons_self m ms)]
    exact ih a (fun m2 hm2 => h m2 (List.mem_cons_of_mem m hm2))

theorem msgSnapshot_none_of_not_stateChange (m : Json)
    (hne : Auto.msgTypeOf m ≠ some (Json.str "stateChange")) :
    Auto.msgSnapshot m = none := by
  cases m with
  | obj fs =>
    unfold Auto.msgSnapshot
    cases hc : optIsStr (List.lookup "type" fs) "stateChange" with
    | true =>
      exact absurd ((optIsStr_iff _ _).mp hc) (by simpa [Auto.msgTypeOf] using hne)
    | false => simp [hc]
  | null => rfl
  | bool b2 => rfl
  | num n => rfl
  | str s2 => rfl
  | arr xs => rfl

/-- Claim C8: across any sequence of handled WebSocket messages, the only
agent state that changes is `current_state`, which ends up equal to the
snapshot of the most recent `stateChange` message (or the initial empty
dictionary when no such message occurred); `error_history` is never modified
by any message, and any message whose type is not `"stateChange"` (such as
`connected`, `pong`, or an unrecognized type) leaves the whole state
unchanged. -/
theorem C8_on_message_frame (d : Discovery) (b : Bridge) (msgs : List Json) :
    (Auto.processSeq d b Auto.initState msgs).error_history = [] ∧
    (∀ (s : Auto.AgentState) (m : Json),
      ((Auto.on_message_data d b s m).1).error_history = s.error_history) ∧
    (Auto.processSeq d b Auto.initState msgs).current_state = Auto.lastSnapshot msgs ∧
    ((∀ m ∈ msgs, Auto.msgSnapshot m = none) →
      (Auto.processSeq d b Auto.initState msgs).current_state = Json.obj []) ∧
    (∀ (s : Auto.AgentState) (m : Json),
      Auto.msgTypeOf m ≠ some (Json.str "stateChange") →
      (Auto.on_message_data d b s m).1 = s) := by
  refine ⟨processSeq_error_history d b msgs Auto.initState, 
    on_message_data_error_history d b, 
    processSeq_current_state d b msgs Auto.initState, ?_, ?_⟩
  · intro h
    rw [processSeq_current_state d b msgs Auto.initState]
    exact foldl_snapshot_none msgs (Json.obj []) h
  · intro s m hne
    simp [Auto.on_message_data, msgSnapshot_none_of_not_stateChange m hne]

/-- Witness for C8: processing a connected message, a Run stateChange and a
pong leaves `error_history` empty and `current_state` equal to the Run
snapshot; a pong alone leaves the initial empty dictionary and the whole
state unchanged. -/
theorem C8_on_message_frame_witness :
    (Auto.processSeq d0 okBridge Auto.initState [connMsg, scMsg, pongMsg]).error_history = [] ∧
    (Auto.processSeq d0 okBridge Auto.initState [connMsg, scMsg, pongMsg]).current_state = runSnap ∧
    (Auto.processSeq d0 okBridge Auto.initState [pongMsg]).current_state = Json.obj [] ∧
    (Auto.on_message_data d0 okBridge Auto.initState pongMsg).1 = Auto.initState := by
  refine ⟨(C8_on_message_frame d0 okBridge [connMsg, scMsg, pongMsg]).1, ?_, ?_, ?_⟩
  · rw [(C8_on_message_frame d0 okBridge [connMsg, scMsg, pongMsg]).2.2.1]
    rfl
  · exact (C8_on_message_frame d0 okBridge [pongMsg]).2.2.2.1
      (by intro m hm; simp at hm; subst hm; rfl)
  · exact (C8_on_message_frame d0 okBridge []).2.2.2.2 Auto.initState pongMsg
      (by simp [Auto.msgTypeOf, pongMsg])

/-! ### Claim C9. -/

/-- Claim C9: `analyze_error` returns either no suggestions or exactly two;
the matching lowercases the description first (so it is case-insensitive), and
the if/elif chain gives the categories a strict priority: the
"not defined"/"does not exist" branch wins over "null reference", which wins
over "type mismatch"/"cannot convert".  The last conjunct ties the suggestion
list to the value `analyze_error` actually returns for a dictionary item with
a string description. -/
theorem C9_analyze_error_shape (dsc : String) (fp l : Json) :
    ((Auto.suggestionsFor dsc fp l).length = 0 ∨ (Auto.suggestionsFor dsc fp l).length = 2) ∧
    Auto.suggestionsFor dsc fp l = Auto.suggestionsFor (pyLower dsc) fp l ∧
    (pyIn "not defined" (pyLower dsc) = true →
      Auto.suggestionsFor dsc fp l =
        ["Missing import or undefined variable", "Action: Check imports at " ++ pyStr fp]) ∧
    (pyIn "not defined" (pyLower dsc) = false → pyIn "does not exist" (pyLower dsc) = false →
      pyIn "null reference" (pyLower dsc) = true →
      Auto.suggestionsFor dsc fp l =
        ["Null reference exception", "Action: Add null check at line " ++ pyStr l]) ∧
    (pyIn "not defined" (pyLower dsc) = false → pyIn "does not exist" (pyLower dsc) = false →
      pyIn "null reference" (pyLower dsc) = false →
      (pyIn "type mismatch" (pyLower dsc) || pyIn "cannot convert" (pyLower dsc)) = true →
      Auto.suggestionsFor dsc fp l =
        ["Type conversion issue", "Action: Check type compatibility"]) ∧
    (∀ (fs : List (String × Json)) (d2 : String),
      List.lookup "description" fs = some (Json.str d2) →
      (Auto.analyze_error (Json.obj fs)).2 =
        .ok (Auto.suggestionsFor d2 ((List.lookup "file" fs).getD (Json.str ""))
          ((List.lookup "line" fs).getD (Json.num 0)))) := by
  refine ⟨?_, ?_, ?_, ?_, ?_, ?_⟩
  · unfold Auto.suggestionsFor
    split_ifs <;> simp
  · simp only [Auto.suggestionsFor, pyLower_idem]
  · intro h
    simp [Auto.suggestionsFor, h]
  · intro h1 h2 h3
    simp [Auto.suggestionsFor, h1, h2, h3]
  · intro h1 h2 h3 h4
    simp [Auto.suggestionsFor, h1, h2, h3, h4]
  · intro fs d2 hd
    simp [Auto.analyze_error, hd]

/-- Witness for C9: a mixed-case description containing "Not Defined" takes
the first branch and yields exactly two suggestions. -/
theorem C9_analyze_error_witness :
    Auto.suggestionsFor "X IS Not Defined" (Json.str "a.cs") (Json.num 10) =
      ["Missing import or undefined variable", "Action: Check imports at a.cs"] ∧
    (Auto.suggestionsFor "X IS Not Defined" (Json.str "a.cs") (Json.num 10)).length = 2 := by
  have h := (C9_analyze_error_shape "X IS Not Defined" (Json.str "a.cs") (Json.num 10)).2.2.1 rfl
  exact ⟨h, by rw [h]; rfl⟩

/-! ### Claim C10. -/

theorem seqRun_not_zero (p q : List String × Option PyErr)
    (hp : isZeroDivErr p.2 = false) (hq : isZeroDivErr q.2 = false) :
    isZeroDivErr (Auto.seqRun p q).2 = false := by
  obtain ⟨o, e⟩ := p
  cases e with
  | none => exact hq
  | some e2 => exact hp

theorem respJson_error_valueError (r : Response) (e : PyErr)
    (h : respJson r = .error e) : e = PyErr.valueError := by
  unfold respJson at h
  cases hp : parseJson r.text <;> rw [hp] at h <;> simp at h
  exact h.symm

theorem analyze_error_not_zeroDiv (item : Json) :
    (Auto.analyze_error item).2 ≠ .error PyErr.zeroDivisionError := by
  cases item with
  | obj fs =>
    unfold Auto.analyze_error
    cases hd : (List.lookup "description" fs).getD (Json.str "") <;> simp [hd]
  | null => simp [Auto.analyze_error]
  | bool b2 => simp [Auto.analyze_error]
  | num n => simp [Auto.analyze_error]
  | str s2 => simp [Auto.analyze_error]
  | arr xs => simp [Auto.analyze_error]

theorem errorsLoop_not_zero : ∀ es, isZeroDivErr (Auto.errorsLoop es).2 = false := by
  intro es
  induction es with
  | nil => rfl
  | cons e es ih =>
    rcases hae : Auto.analyze_error e with ⟨outs, res⟩
    cases res with
    | error err =>
      simp only [Auto.errorsLoop, hae]
      cases err <;> simp [isZeroDivErr]
      exact analyze_error_not_zeroDiv e (by rw [hae])
    | ok suggs =>
      simp only [Auto.errorsLoop, hae]
      exact seqRun_not_zero _ _ rfl ih

theorem errorsReport_not_zero (errors : Json) :
    isZeroDivErr (Auto.errorsReport errors).2 = false := by
  cases ht : pyTruthy errors with
  | false => simp [Auto.errorsReport, ht, isZeroDivErr]
  | true =>
    cases errors with
    | arr l =>
      simp only [Auto.errorsReport, ht, if_true]
      exact seqRun_not_zero _ _ rfl (errorsLoop_not_zero _)
    | null => simp [Auto.errorsReport, ht, isZeroDivErr]
    | bool b2 => simp [Auto.errorsReport, ht, isZeroDivErr]
    | num n => simp [Auto.errorsReport, ht, isZeroDivErr]
    | str s2 => simp [Auto.errorsReport, ht, isZeroDivErr]
    | obj fs => simp [Auto.errorsReport, ht, isZeroDivErr]

theorem logsReport_not_zero (logs : Json) :
    isZeroDivErr (Auto.logsReport logs).2 = false := by
  cases ht : pyTruthy logs with
  | false => simp [Auto.logsReport, ht, isZeroDivErr]
  | true =>
    cases logs with
    | arr l =>
      have hlen : l.length ≠ 0 := by
        cases l with
        | nil => simp [pyTruthy] at ht
        | cons x xs => simp
      cases hds : Auto.durSum l with
      | none => simp [Auto.logsReport, ht, hds, isZeroDivErr]
      | some s => simp [Auto.logsReport, ht, hds, Auto.pyDiv, hlen, isZeroDivErr]
    | null => simp [Auto.logsReport, ht, isZeroDivErr]
    | bool b2 => simp [Auto.logsReport, ht, isZeroDivErr]
    | num n => simp [Auto.logsReport, ht, isZeroDivErr]
    | str s2 => simp [Auto.logsReport, ht, isZeroDivErr]
    | obj fs => simp [Auto.logsReport, ht, isZeroDivErr]

theorem analyze_session_not_zeroDiv (d : Discovery) (b : Bridge) :
    isZeroDivErr (Auto.analyze_session d b).2 = false := by
  unfold Auto.analyze_session
  apply seqRun_not_zero
  · rfl
  · apply seqRun_not_zero
    · cases he : (Auto.get_errors d b).2 with
      | error e =>
        have hv := respJson_error_valueError _ e he
        subst hv
        rfl
      | ok errors => exact errorsReport_not_zero errors
    · apply seqRun_not_zero
      · rfl
      · apply seqRun_not_zero
        · cases hl : (Auto.get_logs d b).2 with
          | error e =>
            have hv := respJson_error_valueError _ e hl
            subst hv
            rfl
          | ok logs => exact logsReport_not_zero logs
        · rfl

/-- Claim C10: `analyze_session` never raises a ZeroDivisionError: the average
request duration is computed only under the `if logs:` guard, whose truth
forces a non-empty list, so `len(logs)` is never zero there; and a log entry
lacking the `durationMs` field contributes 0 to the sum. -/
theorem C10_session_avg_guard (d : Discovery) (b : Bridge) :
    isZeroDivErr (Auto.analyze_session d b).2 = false ∧
    (∀ (fs : List (String × Json)) (ls : List Json),
      List.lookup "durationMs" fs = none →
      Auto.durSum (Json.obj fs :: ls) = Auto.durSum ls) ∧
    (∀ fs : List (String × Json), List.lookup "durationMs" fs = none →
      Auto.durationOf (Json.obj fs) = some 0) := by
  refine ⟨analyze_session_not_zeroDiv d b, ?_, ?_⟩
  · intro fs ls h
    cases hds : Auto.durSum ls <;> simp [Auto.durSum, Auto.durationOf, h, hds]
  · intro fs h
    simp [Auto.durationOf, h]

/-- Witness for C10: a concrete session analysis completes without a
ZeroDivisionError marker, and a log entry without `durationMs` contributes 0
to the duration sum. -/
theorem C10_session_avg_witness :
    isZeroDivErr (Auto.analyze_session d0 okBridge).2 = false ∧
    Auto.durSum [Json.obj [("method", Json.str "GET")],
      Json.obj [("durationMs", Json.num 10)]] = some 10 := by
  refine ⟨(C10_session_avg_guard d0 okBridge).1, ?_⟩
  rw [(C10_session_avg_guard d0 okBridge).2.1 [("method", Json.str "GET")]
    [Json.obj [("durationMs", Json.num 10)]] rfl]
  rfl
